import Mathlib

/-!
# User service: handlers of `server.go`

A shallow embedding of the three HTTP handlers of `server.go`
(`createUserHandler`, `getUserHandler`, `getAllUsersHandler`) and of their
helper `sendError`.

The handlers talk to three libraries; each is represented by a small model
of the behaviour the handlers rely on:

* `net/http` response writer: the first `WriteHeader` fixes the status, later
  calls are ignored; a `Write` before any `WriteHeader` implies status 200.
* `encoding/json`: `Encode` marshals the value first and writes the bytes in
  one `Write`; a nil slice is marshalled as `null`.  Whether marshalling or
  writing fails is an input of the model (`Env.enc`).
* MongoDB driver: the collection is a list of BSON documents with a unique
  `_id`; a `time.Time` is stored as a BSON DateTime (whole milliseconds since
  the Unix epoch); timeouts and connection losses are inputs of the model
  (`Env.dbFault`, `Env.cursorFault`).

The request decoder, the identifier generator and the clock are inputs too
(`Env.decode`, `Env.newID`, `Env.now`).
-/

set_option autoImplicit false

namespace UserService

/-! ## Identifiers -/

/-- One byte. -/
abbrev Byte := Fin 256

/-- The type `primitive.ObjectID`, which is `[12]byte`. -/
structure ObjectID where
  bytes : List Byte
  size : bytes.length = 12
deriving DecidableEq

/-- The zero value `primitive.NilObjectID`. -/
def NilObjectID : ObjectID := ⟨List.replicate 12 0, rfl⟩

/-- The table `hextable` of `encoding/hex`. -/
def hextable : List Char := "0123456789abcdef".data

/-- Go's `len(s)` for a string: the number of bytes of its UTF-8 encoding. -/
def goLen (s : String) : Nat := (s.data.map Char.utf8Size).sum

/-- The function `fromHexChar` of `encoding/hex`: the value of one hexadecimal digit,
either case. -/
def fromHexChar (c : Char) : Option (Fin 16) :=
  if h : 48 ≤ c.toNat ∧ c.toNat ≤ 57 then some ⟨c.toNat - 48, by omega⟩
  else if h : 97 ≤ c.toNat ∧ c.toNat ≤ 102 then some ⟨c.toNat - 97 + 10, by omega⟩
  else if h : 65 ≤ c.toNat ∧ c.toNat ≤ 70 then some ⟨c.toNat - 65 + 10, by omega⟩
  else none

/-- The function `hex.Decode`: two digits per byte, high digit first; any character that is not a
hexadecimal digit, or an odd number of digits, is an error.  (A character outside ASCII
consists of bytes above 0x7f, none of them a digit, so deciding per character agrees
with deciding per byte.) -/
def hexDecode : List Char → Option (List Byte)
  | [] => some []
  | [_] => none
  | p :: q :: rest =>
    match fromHexChar p, fromHexChar q with
    | some a, some b =>
      match hexDecode rest with
      | some bs => some (⟨a.val * 16 + b.val, by omega⟩ :: bs)
      | none => none
    | _, _ => none

/-- The function `primitive.ObjectIDFromHex`: the string must be 24 bytes long and decode as
hexadecimal; `none` stands for a non-nil error. -/
def ObjectIDFromHex (s : String) : Option ObjectID :=
  if goLen s ≠ 24 then none
  else
    match hexDecode s.data with
    | some bs => if h : bs.length = 12 then some ⟨bs, h⟩ else none
    | none => none

/-- The function `hex.Encode` on one byte: `hextable[v>>4]`, `hextable[v&0x0f]`. -/
def hexEncodeByte (v : Byte) : List Char :=
  [hextable.getD (v.val / 16) '0', hextable.getD (v.val % 16) '0']

/-- The method `ObjectID.Hex`, which is also how an ObjectID is marshalled to JSON. -/
def ObjectID.Hex (id : ObjectID) : String := ⟨id.bytes.flatMap hexEncodeByte⟩

/-! ## Time -/

/-- An instant of `time.Time`: nanoseconds since the Unix epoch (location and
monotonic reading left out). -/
structure Time where
  unixNano : Int
deriving DecidableEq

/-- The zero value of `time.Time`: January 1, year 1, 00:00:00 UTC. -/
def Time.zero : Time := ⟨-62135596800000000000⟩

/-- The method `Time.Unix`: whole seconds since the epoch (rounded down). -/
def Time.Unix (t : Time) : Int := t.unixNano / 1000000000

/-- The method `Time.Nanosecond`: nanosecond offset within the second, in [0, 999999999]. -/
def Time.Nanosecond (t : Time) : Int := t.unixNano % 1000000000

/-- The function `time.Unix(sec, nsec)`. -/
def timeUnix (sec nsec : Int) : Time := ⟨sec * 1000000000 + nsec⟩

/-- A BSON DateTime, `primitive.DateTime`: milliseconds since the Unix epoch. -/
abbrev DateTime := Int

/-- The function `primitive.NewDateTimeFromTime`: `t.Unix()*1e3 + int64(t.Nanosecond())/1e6`. -/
def NewDateTimeFromTime (t : Time) : DateTime := t.Unix * 1000 + t.Nanosecond / 1000000

/-- The method `DateTime.Time`: `time.Unix(int64(d)/1000, int64(d)%1000*1000000)`, with Go's
truncating division and remainder. -/
def DateTime.Time (d : DateTime) : Time :=
  timeUnix (Int.tdiv d 1000) (Int.tmod d 1000 * 1000000)

/-! ## Data model -/

/-- The struct `User`. -/
structure User where
  ID : ObjectID
  Username : String
  Password : String
  CreatedAt : Time
deriving DecidableEq

/-- The zero value of `User` (what `var user User` holds). -/
def User.zero : User := ⟨NilObjectID, "", "", Time.zero⟩

/-- The struct `ErrorResponse`. -/
structure ErrorResponse where
  Error : String
deriving DecidableEq

/-- A Go slice value: the nil slice, or a slice holding elements (possibly none). -/
inductive Slice (α : Type) where
  | nil
  | elems (xs : List α)
deriving DecidableEq

/-- The reslicing `s[0:0]`: a nil slice stays nil. -/
def Slice.slice00 {α : Type} : Slice α → Slice α
  | .nil => .nil
  | .elems _ => .elems []

/-- A user document of the collection, as the `bson` tags of `User` lay it out. -/
structure BsonUser where
  _id : ObjectID
  username : String
  password : String
  created_at : DateTime
deriving DecidableEq

/-- BSON marshalling of a `User`. -/
def User.toBSON (u : User) : BsonUser :=
  ⟨u.ID, u.Username, u.Password, NewDateTimeFromTime u.CreatedAt⟩

/-- BSON unmarshalling into a `User`. -/
def BsonUser.toUser (d : BsonUser) : User :=
  ⟨d._id, d.username, d.password, DateTime.Time d.created_at⟩

/-- The JSON object of a `User`, as its `json` tags lay it out: `id` is the hex string of the
ObjectID, `created_at` stands for the RFC 3339 text (nanosecond precision) of the instant. -/
structure UserJSON where
  id : String
  username : String
  password : String
  created_at : Time
deriving DecidableEq

/-- One JSON document of a response body. -/
inductive Document where
  | record (r : UserJSON)
  | array (rs : List UserJSON)
  | null
  | error (message : String)
deriving DecidableEq

/-- The values the handlers hand to `json.Encoder.Encode`. -/
inductive Payload where
  | user (u : User)
  | users (us : Slice User)
  | error (e : ErrorResponse)
deriving DecidableEq

/-- JSON marshalling of a `User`. -/
def User.toJSON (u : User) : UserJSON := ⟨u.ID.Hex, u.Username, u.Password, u.CreatedAt⟩

/-- JSON marshalling of a payload; a nil slice is marshalled as `null`. -/
def Marshal : Payload → Document
  | .user u => .record u.toJSON
  | .users .nil => .null
  | .users (.elems us) => .array (us.map User.toJSON)
  | .error e => .error e.Error

/-! ## Environment of one request -/

/-- Outcome of one `Encode` call. -/
inductive EncOutcome where
  | ok
  | marshalError
  | writeError
deriving DecidableEq

/-- Errors of the database driver as the handlers tell them apart. -/
inductive DbError where
  | ErrNoDocuments
  | other
deriving DecidableEq

/-- What one request gets from outside the handler. -/
structure Env where
  /-- Result of `json.NewDecoder(r.Body).Decode(&user)` on a body; `none` is an error. -/
  decode : String → Option User
  /-- Result of `primitive.NewObjectID()`. -/
  newID : ObjectID
  /-- Result of `time.Now()`. -/
  now : Time
  /-- The database call of the request fails (timeout, connection loss, undecodable document). -/
  dbFault : Bool
  /-- The call `cursor.All` fails. -/
  cursorFault : Bool
  /-- Outcome of encoding a given value to the response. -/
  enc : Payload → EncOutcome

/-! ## Response writer -/

/-- The state of an `http.ResponseWriter`. -/
structure ResponseWriter where
  header : List (String × String)
  status : Option Nat
  body : List Document
deriving DecidableEq

/-- A fresh response writer. -/
def ResponseWriter.new : ResponseWriter := ⟨[], none, []⟩

/-- The call `w.Header().Set(key, value)`. -/
def ResponseWriter.HeaderSet (w : ResponseWriter) (key value : String) : ResponseWriter :=
  { w with header := (key, value) :: w.header.filter (fun kv => kv.1 ≠ key) }

/-- The call `w.WriteHeader(code)`: only the first call takes effect. -/
def ResponseWriter.WriteHeader (w : ResponseWriter) (code : Nat) : ResponseWriter :=
  match w.status with
  | some _ => w
  | none => { w with status := some code }

/-- The call `w.Write` of one document: implies `WriteHeader(200)` when no header was written. -/
def ResponseWriter.Write (w : ResponseWriter) (doc : Document) : ResponseWriter :=
  let w1 := w.WriteHeader 200
  { w1 with body := w1.body ++ [doc] }

/-- The call `json.NewEncoder(w).Encode(v)`; the flag is `err != nil`.  A marshalling error
writes nothing; a write error has called `w.Write`, which fixes the status, and delivers
no document. -/
def Encode (enc : Payload → EncOutcome) (w : ResponseWriter) (v : Payload) :
    ResponseWriter × Bool :=
  match enc v with
  | .ok => (w.Write (Marshal v), false)
  | .marshalError => (w, true)
  | .writeError => (w.WriteHeader 200, true)

/-! ## Collection -/

/-- The collection: its documents in insertion order. -/
abbrev Store := List BsonUser

/-- A database operation issued by a handler. -/
inductive DbOp where
  | insertOne (u : User)
  | findOne (id : ObjectID)
  | find
deriving DecidableEq

/-- The call `collection.InsertOne(ctx, user)`: fails on a fault and on a duplicate `_id`,
otherwise appends the document and returns its `_id` as `InsertedID`. -/
def InsertOne (fault : Bool) (db : Store) (user : User) : Store × Except DbError ObjectID :=
  if fault then (db, .error .other)
  else if db.any (fun d => d._id = user.ID) then (db, .error .other)
  else (db ++ [user.toBSON], .ok user.ID)

/-- The call `collection.FindOne(ctx, bson.M{"_id": id}).Decode(&user)`. -/
def FindOneDecode (fault : Bool) (db : Store) (id : ObjectID) : Except DbError User :=
  if fault then .error .other
  else
    match db.find? (fun d => d._id = id) with
    | none => .error .ErrNoDocuments
    | some d => .ok d.toUser

/-- The call `collection.Find(ctx, bson.M{})`: a cursor over every document. -/
def Find (fault : Bool) (db : Store) : Except DbError (List BsonUser) :=
  if fault then .error .other else .ok db

/-- The call `cursor.All(ctx, &results)`: decodes every document of the cursor over the slice;
with no document the slice is resliced to `[0:0]`. -/
def CursorAll (fault : Bool) (cursor : List BsonUser) (results : Slice User) :
    Except DbError (Slice User) :=
  if fault then .error .other
  else
    match cursor with
    | [] => .ok results.slice00
    | d :: ds => .ok (.elems ((d :: ds).map BsonUser.toUser))

/-! ## Handlers -/

/-- What running a handler leaves behind. -/
structure Result where
  w : ResponseWriter
  db : Store
  ops : List DbOp
deriving DecidableEq

/-- The helper `sendError`. -/
def sendError (env : Env) (w : ResponseWriter) (message : String) (status : Nat) :
    ResponseWriter :=
  let w := w.HeaderSet "Content-Type" "application/json"
  let w := w.WriteHeader status
  (Encode env.enc w (.error ⟨message⟩)).1

/-- The handler `createUserHandler`, on a request with the given body. -/
def createUserHandler (env : Env) (db : Store) (body : String) : Result :=
  let w := ResponseWriter.new.HeaderSet "Content-Type" "application/json"
  match env.decode body with
  | none => ⟨sendError env w "invalid request payload" 400, db, []⟩
  | some user =>
    let user := { user with ID := env.newID }
    let user := { user with CreatedAt := env.now }
    match InsertOne env.dbFault db user with
    | (db, .error _) => ⟨sendError env w "Failed to create user" 500, db, [.insertOne user]⟩
    | (db, .ok insertedID) =>
      let stored := user
      let user := { user with ID := insertedID }
      let w := w.WriteHeader 201
      match Encode env.enc w (.user user) with
      | (w, true) => ⟨sendError env w "Error Encoding JSON" 500, db, [.insertOne stored]⟩
      | (w, false) => ⟨w, db, [.insertOne stored]⟩

/-- The handler `getUserHandler`, on a request whose path variable `id` is the given string. -/
def getUserHandler (env : Env) (db : Store) (id : String) : Result :=
  let w := ResponseWriter.new.HeaderSet "Content-Type" "application/json"
  match ObjectIDFromHex id with
  | none => ⟨sendError env w "Invalid user ID" 400, db, []⟩
  | some oid =>
    match FindOneDecode env.dbFault db oid with
    | .error .ErrNoDocuments => ⟨sendError env w "user not found" 404, db, [.findOne oid]⟩
    | r =>
      let (w, user) :=
        match r with
        | .error _ => (sendError env w "Failed to fetch user" 500, User.zero)
        | .ok user => (w, user)
      match Encode env.enc w (.user user) with
      | (w, true) => ⟨sendError env w "Error encoding JSON" 500, db, [.findOne oid]⟩
      | (w, false) => ⟨w, db, [.findOne oid]⟩

/-- The handler `getAllUsersHandler`. -/
def getAllUsersHandler (env : Env) (db : Store) : Result :=
  let w := ResponseWriter.new.HeaderSet "Content-Type" "application/json"
  match Find env.dbFault db with
  | .error _ => ⟨sendError env w "Failed to fetch Users" 500, db, [.find]⟩
  | .ok cursor =>
    let users : Slice User := .nil
    match CursorAll env.cursorFault cursor users with
    | .error _ => ⟨sendError env w "Failed to decode users" 500, db, [.find]⟩
    | .ok users =>
      match Encode env.enc w (.users users) with
      | (w, true) => ⟨sendError env w "Error encoding JSON" 500, db, [.find]⟩
      | (w, false) => ⟨w, db, [.find]⟩

/-! ## Vocabulary of the specification -/

/-- A hexadecimal character: a digit, or a letter from a to f in either case. -/
def IsHexChar (c : Char) : Prop :=
  ('0' ≤ c ∧ c ≤ '9') ∨ ('a' ≤ c ∧ c ≤ 'f') ∨ ('A' ≤ c ∧ c ≤ 'F')

instance (c : Char) : Decidable (IsHexChar c) := by
  unfold IsHexChar
  infer_instance

/-- A well-formed object id: exactly 24 hexadecimal characters. -/
def WellFormedID (s : String) : Prop :=
  s.data.length = 24 ∧ ∀ c ∈ s.data, IsHexChar c

/-- The instant rounded down to a whole number of milliseconds. -/
def Time.roundDownMs (t : Time) : Time := ⟨t.unixNano / 1000000 * 1000000⟩


/-- The records a JSON document holds. -/
def Document.records : Document → List UserJSON
  | .record r => [r]
  | .array rs => rs
  | .null => []
  | .error _ => []

/-- A sequence of create calls, each with its own environment and body, run one after the
other on the store: the final store and the responses in call order. -/
def createAll (db : Store) : List (Env × String) → Store × List ResponseWriter
  | [] => (db, [])
  | (env, body) :: rest =>
    ((createAll (createUserHandler env db body).db rest).1,
      (createUserHandler env db body).w :: (createAll (createUserHandler env db body).db rest).2)

/-! ## Sample requests -/

/-- An encoder on which every call succeeds. -/
def okEnc : Payload → EncOutcome := fun _ => .ok

/-- A sample generated identifier. -/
def sampleID : ObjectID := ⟨[101, 77, 18, 52, 171, 205, 239, 1, 35, 69, 103, 137], rfl⟩

/-- A sample request body of a create call. -/
def aliceBody : String := "\x7b\"username\":\"alice\",\"password\":\"p1\"\x7d"

/-- A sample decoder: it accepts `aliceBody` (the client sent no id and no timestamp) and
rejects every other body, among them `not json` and `123`. -/
def sampleDecode : String → Option User := fun b =>
  if b = aliceBody then some ⟨NilObjectID, "alice", "p1", Time.zero⟩ else none

/-- A sample environment without faults; the clock reads 1700000000.123456789 s. -/
def sampleEnv : Env := ⟨sampleDecode, sampleID, ⟨1700000000123456789⟩, false, false, okEnc⟩

/-- The sample environment with a failing database call. -/
def faultEnv : Env := { sampleEnv with dbFault := true }

/-- The sample environment with a failing `cursor.All`. -/
def cursorFaultEnv : Env := { sampleEnv with cursorFault := true }

/-- The sample environment on a connection where writing a record fails and writing an
error object succeeds. -/
def writeFailEnv : Env :=
  { sampleEnv with enc := fun p => match p with | .error _ => .ok | _ => .writeError }

/-- The sample environment in which marshalling a record or a list of records fails. -/
def marshalFailEnv : Env :=
  { sampleEnv with enc := fun p => match p with | .error _ => .ok | _ => .marshalError }

/-! ## Lemmas on identifiers -/

theorem fromHexChar_isSome_iff (c : Char) : (fromHexChar c).isSome ↔ IsHexChar c := by
  unfold fromHexChar IsHexChar
  have h0 : ∀ a b : Char, a ≤ b ↔ a.toNat ≤ b.toNat := fun a b => Iff.rfl
  simp only [h0]
  have e1 : ('0' : Char).toNat = 48 := rfl
  have e2 : ('9' : Char).toNat = 57 := rfl
  have e3 : ('a' : Char).toNat = 97 := rfl
  have e4 : ('f' : Char).toNat = 102 := rfl
  have e5 : ('A' : Char).toNat = 65 := rfl
  have e6 : ('F' : Char).toNat = 70 := rfl
  rw [e1, e2, e3, e4, e5, e6]
  split_ifs <;> simp <;> omega

theorem utf8Size_of_fromHexChar (c : Char) (h : (fromHexChar c).isSome) : c.utf8Size = 1 := by
  have hc : c.toNat ≤ 127 := by
    unfold fromHexChar at h
    split_ifs at h <;> first | omega | simp at h
  unfold Char.utf8Size
  have h1 : c.val ≤ 127 := hc
  simp [h1]

theorem hexDecode_some : ∀ (l : List Char) (bs : List Byte), hexDecode l = some bs →
    l.length = 2 * bs.length ∧ ∀ c ∈ l, (fromHexChar c).isSome
  | [], bs, h => by
    simp [hexDecode] at h
    subst h
    simp
  | [_], bs, h => by simp [hexDecode] at h
  | p :: q :: rest, bs, h => by
    simp only [hexDecode] at h
    split at h
    · rename_i a b ha hb
      split at h
      · rename_i bs1 hrest
        have ih := hexDecode_some rest bs1 hrest
        simp only [Option.some.injEq] at h
        subst h
        refine ⟨by simp [ih.1]; omega, ?_⟩
        intro c hc
        simp only [List.mem_cons] at hc
        rcases hc with rfl | rfl | hc
        · simp [ha]
        · simp [hb]
        · exact ih.2 c hc
      · simp at h
    · simp at h

theorem hexDecode_isSome : ∀ (n : Nat) (l : List Char), l.length = 2 * n →
    (∀ c ∈ l, (fromHexChar c).isSome) → ∃ bs, hexDecode l = some bs ∧ bs.length = n
  | 0, l, hl, _ => by
    have : l = [] := List.length_eq_zero.mp (by omega)
    subst this
    exact ⟨[], by simp [hexDecode]⟩
  | n + 1, l, hl, hc => by
    match l, hl, hc with
    | [], hl, _ => simp at hl
    | [_], hl, _ => simp at hl; omega
    | p :: q :: rest, hl, hc =>
      have hp := hc p (by simp)
      have hq := hc q (by simp)
      obtain ⟨a, ha⟩ := Option.isSome_iff_exists.mp hp
      obtain ⟨b, hb⟩ := Option.isSome_iff_exists.mp hq
      have hrest : rest.length = 2 * n := by simp at hl; omega
      obtain ⟨bs, hbs, hlen⟩ := hexDecode_isSome n rest hrest
        (fun c h => hc c (by simp [h]))
      refine ⟨⟨a.val * 16 + b.val, by omega⟩ :: bs, ?_, by simp [hlen]⟩
      simp only [hexDecode, ha, hb, hbs]

theorem goLen_eq_length (s : String) (h : ∀ c ∈ s.data, (fromHexChar c).isSome) :
    goLen s = s.data.length := by
  unfold goLen
  generalize s.data = l at h
  induction l with
  | nil => simp
  | cons c cs ih =>
    simp only [List.map_cons, List.sum_cons, List.length_cons]
    rw [ih (fun c hc => h c (by simp [hc])), utf8Size_of_fromHexChar c (h c (by simp))]
    omega

theorem ObjectIDFromHex_eq_none (s : String) (h : ¬ WellFormedID s) :
    ObjectIDFromHex s = none := by
  unfold ObjectIDFromHex
  split_ifs with hlen
  · rfl
  · split
    · rename_i bs hbs
      split_ifs with h12
      · exfalso
        apply h
        have hd := hexDecode_some _ _ hbs
        exact ⟨by rw [hd.1, h12], fun c hc => (fromHexChar_isSome_iff c).mp (hd.2 c hc)⟩
      · rfl
    · rfl

theorem ObjectIDFromHex_isSome (s : String) (h : WellFormedID s) :
    ∃ oid, ObjectIDFromHex s = some oid := by
  have hc : ∀ c ∈ s.data, (fromHexChar c).isSome :=
    fun c hc => (fromHexChar_isSome_iff c).mpr (h.2 c hc)
  obtain ⟨bs, hbs, hlen⟩ := hexDecode_isSome 12 s.data (by rw [h.1]) hc
  refine ⟨⟨bs, hlen⟩, ?_⟩
  unfold ObjectIDFromHex
  rw [goLen_eq_length s hc, h.1]
  simp [hbs, hlen]

theorem fromHexChar_hextable : ∀ d : Fin 16, fromHexChar (hextable.getD d.val '0') = some d := by
  decide

theorem hexDecode_hexEncode (bs : List Byte) :
    hexDecode (bs.flatMap hexEncodeByte) = some bs := by
  induction bs with
  | nil => simp [hexDecode]
  | cons v vs ih =>
    have h1 := fromHexChar_hextable ⟨v.val / 16, by omega⟩
    have h2 := fromHexChar_hextable ⟨v.val % 16, by omega⟩
    have hcons : (v :: vs).flatMap hexEncodeByte =
        hextable.getD (v.val / 16) '0' :: hextable.getD (v.val % 16) '0' ::
          vs.flatMap hexEncodeByte := by
      simp [List.flatMap, hexEncodeByte]
    rw [hcons]
    simp only [hexDecode]
    simp only [] at h1 h2
    rw [h1, h2, ih]
    simp only [Option.some.injEq, List.cons.injEq, and_true]
    apply Fin.ext
    simp only
    omega

theorem ObjectIDFromHex_Hex (id : ObjectID) : ObjectIDFromHex id.Hex = some id := by
  have hd : hexDecode id.Hex.data = some id.bytes := hexDecode_hexEncode id.bytes
  have hs := hexDecode_some _ _ hd
  unfold ObjectIDFromHex
  rw [goLen_eq_length _ hs.2, hs.1, id.size, hd]
  simp [id.size]

/-! ## Lemmas on the response writer -/

theorem sendError_fresh (env : Env) (h : List (String × String)) (message : String)
    (status : Nat) :
    (sendError env ⟨h, none, []⟩ message status).status = some status ∧
    (∀ doc ∈ (sendError env ⟨h, none, []⟩ message status).body,
        doc = Document.error message) ∧
    (env.enc (.error ⟨message⟩) = .ok →
      (sendError env ⟨h, none, []⟩ message status).body = [Document.error message]) := by
  unfold sendError Encode
  cases env.enc (.error ⟨message⟩) <;>
    simp [ResponseWriter.HeaderSet, ResponseWriter.WriteHeader, ResponseWriter.Write, Marshal]

/-! ## Lemmas on stored timestamps -/

theorem bson_time_roundtrip (t : Time) :
    DateTime.Time (NewDateTimeFromTime t) = t.roundDownMs := by
  unfold DateTime.Time NewDateTimeFromTime timeUnix Time.Unix Time.Nanosecond Time.roundDownMs
  have h := Int.tmod_add_tdiv (t.unixNano / 1000000000 * 1000 +
    t.unixNano % 1000000000 / 1000000) 1000
  congr 1
  omega

theorem bson_user_roundtrip (u : User) :
    u.toBSON.toUser = { u with CreatedAt := u.CreatedAt.roundDownMs } := by
  simp [User.toBSON, BsonUser.toUser, bson_time_roundtrip]

/-! ## Create -/

theorem InsertOne_ok_inv (fault : Bool) (db : Store) (user : User) (id : ObjectID)
    (h : (InsertOne fault db user).2 = Except.ok id) :
    fault = false ∧ (db.any fun d => decide (d._id = user.ID)) = false := by
  unfold InsertOne at h
  by_cases h1 : fault = true
  · simp [h1] at h
  · by_cases h2 : (List.any db fun d => decide (d._id = user.ID)) = true
    · rw [if_neg h1, if_pos h2] at h
      simp at h
    · exact ⟨by simpa using h1, by simpa using h2⟩

theorem createUserHandler_eq (env : Env) (db : Store) (body : String) (u : User)
    (hdec : env.decode body = some u) (hfault : env.dbFault = false)
    (hnew : (db.any fun d => decide (d._id = env.newID)) = false) :
    createUserHandler env db body =
      (match Encode env.enc
          ((ResponseWriter.new.HeaderSet "Content-Type" "application/json").WriteHeader 201)
          (.user ⟨env.newID, u.Username, u.Password, env.now⟩) with
        | (w, true) => ⟨sendError env w "Error Encoding JSON" 500,
            db ++ [User.toBSON ⟨env.newID, u.Username, u.Password, env.now⟩],
            [DbOp.insertOne ⟨env.newID, u.Username, u.Password, env.now⟩]⟩
        | (w, false) => ⟨w,
            db ++ [User.toBSON ⟨env.newID, u.Username, u.Password, env.now⟩],
            [DbOp.insertOne ⟨env.newID, u.Username, u.Password, env.now⟩]⟩) := by
  unfold createUserHandler InsertOne
  simp only [hdec, hfault, hnew]
  rfl

theorem createUserHandler_201_inv (env : Env) (db : Store) (body : String)
    (h : (createUserHandler env db body).w.status = some 201) :
    ∃ u, env.decode body = some u ∧ env.dbFault = false ∧
      (db.any fun d => decide (d._id = env.newID)) = false := by
  cases hdec : env.decode body with
  | none =>
    have hs := sendError_fresh env [("Content-Type", "application/json")]
      "invalid request payload" 400
    unfold createUserHandler at h
    simp [hdec, ResponseWriter.new, ResponseWriter.HeaderSet] at h
    rw [hs.1] at h
    simp at h
  | some u =>
    refine ⟨u, rfl, ?_⟩
    have hs := sendError_fresh env [("Content-Type", "application/json")]
      "Failed to create user" 500
    unfold createUserHandler InsertOne at h
    cases hf : env.dbFault with
    | true =>
      simp [hdec, hf, ResponseWriter.new, ResponseWriter.HeaderSet] at h
      rw [hs.1] at h
      simp at h
    | false =>
      cases hd : (db.any fun d => decide (d._id = env.newID)) with
      | true =>
        simp only [hdec, hf, hd] at h
        simp [ResponseWriter.new, ResponseWriter.HeaderSet] at h
        rw [hs.1] at h
        simp at h
      | false => exact ⟨rfl, rfl⟩

/-- C1, amended: when the body decodes into a User and the insert succeeds,
createUserHandler answers 201 and has issued exactly one insert, of the record made of the
request's username and password, the generated id and the clock reading; when the
response can be encoded the body is that record, the one handed to the insert; the
document the store then holds is that record with created_at rounded down to a whole
number of milliseconds; the id and the timestamp of the decoded body play no part: two
bodies with the same username and password give the same result. -/
theorem createUserHandler_created (env : Env) (db : Store) (body : String) (u : User)
    (hdec : env.decode body = some u)
    (hins : ∃ id, (InsertOne env.dbFault db
      ⟨env.newID, u.Username, u.Password, env.now⟩).2 = Except.ok id) :
    (createUserHandler env db body).w.status = some 201 ∧
    (createUserHandler env db body).ops =
      [DbOp.insertOne ⟨env.newID, u.Username, u.Password, env.now⟩] ∧
    (createUserHandler env db body).db =
      db ++ [User.toBSON ⟨env.newID, u.Username, u.Password, env.now⟩] ∧
    (env.enc (.user ⟨env.newID, u.Username, u.Password, env.now⟩) = .ok →
      (createUserHandler env db body).w.body =
        [Document.record ⟨env.newID.Hex, u.Username, u.Password, env.now⟩]) ∧
    (∀ (body2 : String) (u2 : User), env.decode body2 = some u2 →
      u2.Username = u.Username → u2.Password = u.Password →
      createUserHandler env db body2 = createUserHandler env db body) ∧
    (createUserHandler env db body).db.map BsonUser.toUser =
      db.map BsonUser.toUser ++
        [⟨env.newID, u.Username, u.Password, env.now.roundDownMs⟩] := by
  obtain ⟨id, hid⟩ := hins
  obtain ⟨h1, h2⟩ := InsertOne_ok_inv _ _ _ _ hid
  have key : ∀ (b : String) (v : User), env.decode b = some v →
      v.Username = u.Username → v.Password = u.Password →
      createUserHandler env db b = _ := fun b v hb hu hp => by
    rw [createUserHandler_eq env db b v hb h1 h2, hu, hp]
  refine ⟨?_, ?_, ?_, ?_, ?_, ?_⟩
  rotate_right
  · have hdb : (createUserHandler env db body).db =
        db ++ [User.toBSON ⟨env.newID, u.Username, u.Password, env.now⟩] := by
      rw [key body u hdec rfl rfl]
      split <;> rfl
    rw [hdb, List.map_append, List.map_singleton, bson_user_roundtrip]
  · rw [key body u hdec rfl rfl]
    unfold Encode
    cases env.enc (.user ⟨env.newID, u.Username, u.Password, env.now⟩) <;>
      simp [ResponseWriter.new, ResponseWriter.HeaderSet, ResponseWriter.WriteHeader,
        ResponseWriter.Write, sendError, Encode] <;>
      cases env.enc (.error ⟨"Error Encoding JSON"⟩) <;> simp [ResponseWriter.Write,
        ResponseWriter.WriteHeader]
  · rw [key body u hdec rfl rfl]
    split <;> rfl
  · rw [key body u hdec rfl rfl]
    split <;> rfl
  · intro henc
    rw [key body u hdec rfl rfl]
    simp [Encode, henc, ResponseWriter.new, ResponseWriter.HeaderSet,
      ResponseWriter.WriteHeader, ResponseWriter.Write, Marshal, User.toJSON]
  · intro body2 u2 h2 hu hp
    rw [key body2 u2 h2 hu hp, key body u hdec rfl rfl]

/-- Witness of C1, amended, on the sample request. -/
theorem createUserHandler_created_witness :
    (createUserHandler sampleEnv [] aliceBody).w.status = some 201 ∧
    (createUserHandler sampleEnv [] aliceBody).w.body =
      [Document.record ⟨"654d1234abcdef0123456789", "alice", "p1", ⟨1700000000123456789⟩⟩] :=
  have h := createUserHandler_created sampleEnv [] aliceBody ⟨NilObjectID, "alice", "p1", Time.zero⟩
    (by decide) ⟨sampleID, rfl⟩
  ⟨h.1, by have := h.2.2.2.1 (by decide); simpa using this⟩

/-- C1 as stated fails: on the sample request the body carries created_at
1700000000.123456789 s while the document the store holds, read back, carries
created_at 1700000000.123 s, so the body is not the stored record. -/
theorem createUserHandler_body_not_stored :
    (createUserHandler sampleEnv [] aliceBody).w.status = some 201 ∧
    (createUserHandler sampleEnv [] aliceBody).w.body =
      [Document.record ⟨"654d1234abcdef0123456789", "alice", "p1",
        ⟨1700000000123456789⟩⟩] ∧
    (createUserHandler sampleEnv [] aliceBody).db =
      [⟨sampleID, "alice", "p1", 1700000000123⟩] ∧
    (createUserHandler sampleEnv [] aliceBody).db.map
        (fun d => Document.record d.toUser.toJSON) =
      [Document.record ⟨"654d1234abcdef0123456789", "alice", "p1",
        ⟨1700000000123000000⟩⟩] ∧
    (createUserHandler sampleEnv [] aliceBody).db.map
        (fun d => Document.record d.toUser.toJSON) ≠
      (createUserHandler sampleEnv [] aliceBody).w.body := by
  decide

/-- C2: when the body does not decode into a User, createUserHandler answers 400 with the
error object "invalid request payload" (when it can be encoded), issues no database
operation and leaves the store as it was. -/
theorem createUserHandler_invalid_payload (env : Env) (db : Store) (body : String)
    (hdec : env.decode body = none) :
    (createUserHandler env db body).w.status = some 400 ∧
    (createUserHandler env db body).ops = [] ∧
    (createUserHandler env db body).db = db ∧
    (∀ doc ∈ (createUserHandler env db body).w.body,
      doc = Document.error "invalid request payload") ∧
    (env.enc (.error ⟨"invalid request payload"⟩) = .ok →
      (createUserHandler env db body).w.body = [Document.error "invalid request payload"]) := by
  have h := sendError_fresh env [("Content-Type", "application/json")]
    "invalid request payload" 400
  have e : createUserHandler env db body =
      ⟨sendError env ⟨[("Content-Type", "application/json")], none, []⟩
        "invalid request payload" 400, db, []⟩ := by
    unfold createUserHandler
    simp [hdec, ResponseWriter.new, ResponseWriter.HeaderSet]
  rw [e]
  exact ⟨h.1, rfl, rfl, h.2.1, h.2.2⟩

/-- Witness of C2 on the bodies `not json` and `123`. -/
theorem createUserHandler_invalid_payload_witness :
    (createUserHandler sampleEnv [] "not json").w.status = some 400 ∧
    (createUserHandler sampleEnv [] "123").w.status = some 400 ∧
    (createUserHandler sampleEnv [] "123").w.body = [Document.error "invalid request payload"] ∧
    (createUserHandler sampleEnv [] "123").ops = [] :=
  ⟨(createUserHandler_invalid_payload sampleEnv [] "not json" (by decide)).1,
   (createUserHandler_invalid_payload sampleEnv [] "123" (by decide)).1,
   (createUserHandler_invalid_payload sampleEnv [] "123" (by decide)).2.2.2.2 (by decide),
   (createUserHandler_invalid_payload sampleEnv [] "123" (by decide)).2.1⟩

/-! ## Get by id -/

/-- C3: for a path identifier that is not a well-formed object id, getUserHandler answers
400 (so neither 404 nor 500) whatever the store holds and whether or not the database
works, and issues no database operation. -/
theorem getUserHandler_malformed_id (env : Env) (db : Store) (id : String)
    (h : ¬ WellFormedID id) :
    (getUserHandler env db id).w.status = some 400 ∧
    (getUserHandler env db id).ops = [] ∧
    (getUserHandler env db id).db = db ∧
    (∀ doc ∈ (getUserHandler env db id).w.body, doc = Document.error "Invalid user ID") := by
  have hs := sendError_fresh env [("Content-Type", "application/json")] "Invalid user ID" 400
  have e : getUserHandler env db id =
      ⟨sendError env ⟨[("Content-Type", "application/json")], none, []⟩
        "Invalid user ID" 400, db, []⟩ := by
    unfold getUserHandler
    simp [ObjectIDFromHex_eq_none id h, ResponseWriter.new, ResponseWriter.HeaderSet]
  rw [e]
  exact ⟨hs.1, rfl, rfl, hs.2.1⟩

/-- Witness of C3 on the identifier `not-an-id`, with a failing database. -/
theorem getUserHandler_malformed_id_witness :
    ¬ WellFormedID "not-an-id" ∧
    (getUserHandler faultEnv [] "not-an-id").w.status = some 400 ∧
    (getUserHandler faultEnv [] "not-an-id").ops = [] :=
  have hn : ¬ WellFormedID "not-an-id" := fun h => absurd h.1 (by decide)
  ⟨hn, (getUserHandler_malformed_id faultEnv [] "not-an-id" hn).1,
    (getUserHandler_malformed_id faultEnv [] "not-an-id" hn).2.1⟩

/-- C4: for a well-formed identifier that no record of the store carries, and a lookup
that completes, getUserHandler answers 404 with the error object "user not found" (when
it can be encoded) and writes no record. -/
theorem getUserHandler_not_found (env : Env) (db : Store) (id : String)
    (hwf : WellFormedID id) (hfault : env.dbFault = false)
    (habs : ∀ d ∈ db, ObjectIDFromHex id ≠ some d._id) :
    (getUserHandler env db id).w.status = some 404 ∧
    (∀ doc ∈ (getUserHandler env db id).w.body, doc = Document.error "user not found") ∧
    (∀ r, Document.record r ∉ (getUserHandler env db id).w.body) ∧
    (env.enc (.error ⟨"user not found"⟩) = .ok →
      (getUserHandler env db id).w.body = [Document.error "user not found"]) := by
  obtain ⟨oid, hoid⟩ := ObjectIDFromHex_isSome id hwf
  have hfind : db.find? (fun d => decide (d._id = oid)) = none := by
    rw [List.find?_eq_none]
    intro d hd
    have := habs d hd
    rw [hoid] at this
    simpa using fun h => this (by rw [h])
  have hs := sendError_fresh env [("Content-Type", "application/json")] "user not found" 404
  have e : getUserHandler env db id =
      ⟨sendError env ⟨[("Content-Type", "application/json")], none, []⟩
        "user not found" 404, db, [DbOp.findOne oid]⟩ := by
    unfold getUserHandler FindOneDecode
    simp [hoid, hfault, hfind, ResponseWriter.new, ResponseWriter.HeaderSet]
  rw [e]
  refine ⟨hs.1, hs.2.1, ?_, hs.2.2⟩
  intro r hr
  have := hs.2.1 _ hr
  simp at this

/-- Witness of C4 on the identifier `000000000000000000000000` and a store holding one
other record. -/
theorem getUserHandler_not_found_witness :
    WellFormedID "000000000000000000000000" ∧
    (getUserHandler sampleEnv [⟨sampleID, "alice", "p1", 0⟩]
      "000000000000000000000000").w.status = some 404 ∧
    (getUserHandler sampleEnv [⟨sampleID, "alice", "p1", 0⟩]
      "000000000000000000000000").w.body = [Document.error "user not found"] :=
  have hwf : WellFormedID "000000000000000000000000" :=
    ⟨by decide, by decide⟩
  have h := getUserHandler_not_found sampleEnv [⟨sampleID, "alice", "p1", 0⟩]
    "000000000000000000000000" hwf rfl (by decide)
  ⟨hwf, h.1, h.2.2.2 rfl⟩

theorem find?_append_new (db : Store) (d : BsonUser)
    (hnew : (db.any fun x => decide (x._id = d._id)) = false) :
    (db ++ [d]).find? (fun x => decide (x._id = d._id)) = some d := by
  have h0 : db.find? (fun x => decide (x._id = d._id)) = none := by
    rw [List.find?_eq_none]
    intro x hx
    rw [List.any_eq_false] at hnew
    exact hnew x hx
  rw [List.find?_append, h0]
  simp

theorem getUserHandler_found (env : Env) (db : Store) (id : String) (oid : ObjectID)
    (d : BsonUser) (hid : ObjectIDFromHex id = some oid) (hfault : env.dbFault = false)
    (hfind : db.find? (fun x => decide (x._id = oid)) = some d)
    (henc : env.enc (.user d.toUser) = .ok) :
    (getUserHandler env db id).w.status = some 200 ∧
    (getUserHandler env db id).w.body = [Document.record d.toUser.toJSON] := by
  unfold getUserHandler FindOneDecode
  simp [hid, hfault, hfind, Encode, henc, ResponseWriter.new, ResponseWriter.HeaderSet,
    ResponseWriter.Write, ResponseWriter.WriteHeader, Marshal]

theorem createUserHandler_record_inv (env : Env) (db : Store) (body : String) (r : UserJSON)
    (h201 : (createUserHandler env db body).w.status = some 201)
    (hrec : (createUserHandler env db body).w.body = [Document.record r]) :
    ∃ u, env.decode body = some u ∧
      (db.any fun d => decide (d._id = env.newID)) = false ∧
      r = User.toJSON ⟨env.newID, u.Username, u.Password, env.now⟩ ∧
      (createUserHandler env db body).db =
        db ++ [User.toBSON ⟨env.newID, u.Username, u.Password, env.now⟩] := by
  obtain ⟨u, hdec, hfault, hnew⟩ := createUserHandler_201_inv env db body h201
  refine ⟨u, hdec, hnew, ?_, ?_⟩
  · rw [createUserHandler_eq env db body u hdec hfault hnew] at hrec
    unfold Encode at hrec
    cases he : env.enc (.user ⟨env.newID, u.Username, u.Password, env.now⟩) <;>
      simp only [he] at hrec
    · simp [ResponseWriter.new, ResponseWriter.HeaderSet, ResponseWriter.WriteHeader,
        ResponseWriter.Write, Marshal] at hrec
      exact hrec.symm
    · unfold sendError Encode at hrec
      cases he2 : env.enc (.error ⟨"Error Encoding JSON"⟩) <;>
        simp [he2, ResponseWriter.new, ResponseWriter.HeaderSet, ResponseWriter.WriteHeader,
          ResponseWriter.Write, Marshal] at hrec
    · unfold sendError Encode at hrec
      cases he2 : env.enc (.error ⟨"Error Encoding JSON"⟩) <;>
        simp [he2, ResponseWriter.new, ResponseWriter.HeaderSet, ResponseWriter.WriteHeader,
          ResponseWriter.Write, Marshal] at hrec
  · rw [createUserHandler_eq env db body u hdec hfault hnew]
    split <;> rfl

/-- C5, amended: a record returned by a successful createUserHandler call, looked up by
its id with getUserHandler (the lookup completes and the response can be encoded), comes
back with status 200 and the same id, username and password, and with created_at rounded
down to a whole number of milliseconds, the resolution of the stored timestamp. -/
theorem create_then_get (env1 env2 : Env) (db : Store) (body : String) (r : UserJSON)
    (h201 : (createUserHandler env1 db body).w.status = some 201)
    (hrec : (createUserHandler env1 db body).w.body = [Document.record r])
    (hfault : env2.dbFault = false) (henc : ∀ u, env2.enc (.user u) = .ok) :
    (getUserHandler env2 (createUserHandler env1 db body).db r.id).w.status = some 200 ∧
    (getUserHandler env2 (createUserHandler env1 db body).db r.id).w.body =
      [Document.record ⟨r.id, r.username, r.password, r.created_at.roundDownMs⟩] := by
  obtain ⟨u, _, hnew, hr, hdb⟩ := createUserHandler_record_inv env1 db body r h201 hrec
  subst hr
  have hfind := find?_append_new db (User.toBSON ⟨env1.newID, u.Username, u.Password, env1.now⟩)
    hnew
  have h := getUserHandler_found env2 (db ++ [User.toBSON ⟨env1.newID, u.Username,
    u.Password, env1.now⟩]) env1.newID.Hex env1.newID _ (ObjectIDFromHex_Hex _)
    hfault hfind (henc _)
  rw [hdb]
  rw [bson_user_roundtrip] at h
  exact h

/-- Witness of C5, amended, on the sample request. -/
theorem create_then_get_witness :
    (getUserHandler sampleEnv (createUserHandler sampleEnv [] aliceBody).db
      "654d1234abcdef0123456789").w.body =
      [Document.record ⟨"654d1234abcdef0123456789", "alice", "p1",
        Time.roundDownMs ⟨1700000000123456789⟩⟩] :=
  (create_then_get sampleEnv sampleEnv [] aliceBody
    ⟨"654d1234abcdef0123456789", "alice", "p1", ⟨1700000000123456789⟩⟩
    (by decide) (by decide) rfl (fun _ => rfl)).2

/-- C5 as stated fails: the sample create call returns created_at 1700000000.123456789 s, the
lookup of the returned id returns created_at 1700000000.123 s, so the two records differ. -/
theorem create_then_get_not_identical :
    (createUserHandler sampleEnv [] aliceBody).w.status = some 201 ∧
    (createUserHandler sampleEnv [] aliceBody).w.body =
      [Document.record ⟨"654d1234abcdef0123456789", "alice", "p1",
        ⟨1700000000123456789⟩⟩] ∧
    (getUserHandler sampleEnv (createUserHandler sampleEnv [] aliceBody).db
      "654d1234abcdef0123456789").w.status = some 200 ∧
    (getUserHandler sampleEnv (createUserHandler sampleEnv [] aliceBody).db
      "654d1234abcdef0123456789").w.body =
      [Document.record ⟨"654d1234abcdef0123456789", "alice", "p1",
        ⟨1700000000123000000⟩⟩] ∧
    (getUserHandler sampleEnv (createUserHandler sampleEnv [] aliceBody).db
      "654d1234abcdef0123456789").w.body ≠
      (createUserHandler sampleEnv [] aliceBody).w.body := by
  decide

/-! ## List -/

theorem getAllUsersHandler_ok (env : Env) (db : Store) (hf : env.dbFault = false)
    (hc : env.cursorFault = false) (henc : ∀ us, env.enc (.users us) = .ok) :
    (getAllUsersHandler env db).w.status = some 200 ∧
    (getAllUsersHandler env db).w.body =
      [match db with
        | [] => Document.null
        | d :: ds => Document.array ((d :: ds).map fun x => x.toUser.toJSON)] := by
  unfold getAllUsersHandler Find CursorAll
  cases db with
  | nil =>
    simp [hf, hc, Encode, henc, Slice.slice00, ResponseWriter.new, ResponseWriter.HeaderSet,
      ResponseWriter.Write, ResponseWriter.WriteHeader, Marshal]
  | cons d ds =>
    simp [hf, hc, Encode, henc, ResponseWriter.new, ResponseWriter.HeaderSet,
      ResponseWriter.Write, ResponseWriter.WriteHeader, Marshal]

theorem getAllUsersHandler_records (env : Env) (db : Store) (hf : env.dbFault = false)
    (hc : env.cursorFault = false) (henc : ∀ us, env.enc (.users us) = .ok) :
    (getAllUsersHandler env db).w.body.flatMap Document.records =
      db.map fun x => x.toUser.toJSON := by
  rw [(getAllUsersHandler_ok env db hf hc henc).2]
  cases db <;> simp [List.flatMap, Document.records]

/-- C6 at the empty store: with a working database and encoder, getAllUsersHandler answers
200 and the body is the JSON value null, not the empty array; with one record in the store
the body is the array of that record. -/
theorem getAllUsersHandler_empty_store :
    (getAllUsersHandler sampleEnv []).w.status = some 200 ∧
    (getAllUsersHandler sampleEnv []).w.body = [Document.null] ∧
    (getAllUsersHandler sampleEnv []).w.body ≠ [Document.array []] ∧
    (getAllUsersHandler sampleEnv [⟨sampleID, "alice", "p1", 1700000000123⟩]).w.body =
      [Document.array [⟨"654d1234abcdef0123456789", "alice", "p1",
        ⟨1700000000123000000⟩⟩]] := by
  decide

theorem createAll_spec : ∀ (calls : List (Env × String)) (db : Store),
    (∀ w ∈ (createAll db calls).2, w.status = some 201 ∧ ∃ r, w.body = [Document.record r]) →
    ∃ us : List User, (createAll db calls).1 = db ++ us.map User.toBSON ∧
      (createAll db calls).2.flatMap (fun w => w.body.flatMap Document.records) =
        us.map User.toJSON
  | [], db, _ => ⟨[], by simp [createAll]⟩
  | (env, body) :: rest, db, h => by
    have h1 := h (createUserHandler env db body).w (by simp [createAll])
    obtain ⟨h201, r, hr⟩ := h1
    obtain ⟨u, _, _, hru, hdb⟩ := createUserHandler_record_inv env db body r h201 hr
    obtain ⟨us, hs1, hs2⟩ := createAll_spec rest (createUserHandler env db body).db
      (fun w hw => h w (by simp [createAll, hw]))
    refine ⟨⟨env.newID, u.Username, u.Password, env.now⟩ :: us, ?_, ?_⟩
    · simp only [createAll]
      rw [hs1, hdb]
      simp
    · simp only [createAll, List.flatMap_cons]
      rw [hs2, hr, hru]
      simp [List.flatMap, Document.records]

/-- C7, amended: after any number of successful createUserHandler calls on an empty store,
a getAllUsersHandler call whose scan, decoding and encoding succeed answers 200 and the
records of its body are, in some order, exactly the records those calls returned, each
with created_at rounded down to a whole number of milliseconds. -/
theorem list_after_creates (calls : List (Env × String)) (env : Env)
    (hok : ∀ w ∈ (createAll [] calls).2,
      w.status = some 201 ∧ ∃ r, w.body = [Document.record r])
    (hf : env.dbFault = false) (hc : env.cursorFault = false)
    (henc : ∀ us, env.enc (.users us) = .ok) :
    (getAllUsersHandler env (createAll [] calls).1).w.status = some 200 ∧
    List.Perm
      ((getAllUsersHandler env (createAll [] calls).1).w.body.flatMap Document.records)
      (((createAll [] calls).2.flatMap fun w => w.body.flatMap Document.records).map
        fun r => ⟨r.id, r.username, r.password, r.created_at.roundDownMs⟩) := by
  obtain ⟨us, hs1, hs2⟩ := createAll_spec calls [] hok
  refine ⟨(getAllUsersHandler_ok env _ hf hc henc).1, ?_⟩
  apply List.Perm.of_eq
  rw [getAllUsersHandler_records env _ hf hc henc, hs1, hs2]
  simp only [List.nil_append, List.map_map]
  apply List.map_congr_left
  intro u _
  simp [bson_user_roundtrip, User.toJSON]

/-- Witness of C7, amended: two sample create calls, then the list. -/
theorem list_after_creates_witness :
    List.Perm
      ((getAllUsersHandler sampleEnv (createAll []
        [(sampleEnv, aliceBody), ({ sampleEnv with newID := NilObjectID }, aliceBody)]).1
        ).w.body.flatMap Document.records)
      [⟨"654d1234abcdef0123456789", "alice", "p1", Time.roundDownMs ⟨1700000000123456789⟩⟩,
       ⟨"000000000000000000000000", "alice", "p1",
         Time.roundDownMs ⟨1700000000123456789⟩⟩] :=
  (list_after_creates
    [(sampleEnv, aliceBody), ({ sampleEnv with newID := NilObjectID }, aliceBody)] sampleEnv
    (by
      intro w hw
      have hw2 : w ∈ [(createUserHandler sampleEnv [] aliceBody).w,
          (createUserHandler { sampleEnv with newID := NilObjectID }
            (createUserHandler sampleEnv [] aliceBody).db aliceBody).w] := hw
      simp only [List.mem_cons, List.mem_singleton, List.not_mem_nil, or_false] at hw2
      rcases hw2 with rfl | rfl
      · exact ⟨by decide, _, rfl⟩
      · exact ⟨by decide, _, rfl⟩)
    rfl rfl (fun _ => rfl)).2

/-- C7 as stated fails for one create call: the list holds one record, with created_at
1700000000.123 s, and the record the create call returned, with created_at
1700000000.123456789 s, is not in it. -/
theorem list_after_create_differs :
    (createAll [] [(sampleEnv, aliceBody)]).2.map (fun w => (w.status, w.body)) =
      [(some 201, [Document.record ⟨"654d1234abcdef0123456789", "alice", "p1",
        ⟨1700000000123456789⟩⟩])] ∧
    (getAllUsersHandler sampleEnv (createAll [] [(sampleEnv, aliceBody)]).1).w.body =
      [Document.array [⟨"654d1234abcdef0123456789", "alice", "p1",
        ⟨1700000000123000000⟩⟩]] ∧
    (⟨"654d1234abcdef0123456789", "alice", "p1", ⟨1700000000123456789⟩⟩ : UserJSON) ∉
      (getAllUsersHandler sampleEnv
        (createAll [] [(sampleEnv, aliceBody)]).1).w.body.flatMap Document.records := by
  decide

/-! ## Failures -/

/-- C8: a database failure other than not-found gives status 500 and the error object
(when it can be encoded): a failed insert in createUserHandler, a lookup error other than
no-documents in getUserHandler (where the error object is the first document of the
body), a failed scan or a failed decode in getAllUsersHandler. -/
theorem database_failure_500 (env : Env) (db : Store) (body id : String) (u : User)
    (oid : ObjectID) :
    (env.decode body = some u →
      (∃ e, (InsertOne env.dbFault db
        ⟨env.newID, u.Username, u.Password, env.now⟩).2 = Except.error e) →
      (createUserHandler env db body).w.status = some 500 ∧
      (∀ doc ∈ (createUserHandler env db body).w.body,
        doc = Document.error "Failed to create user") ∧
      (env.enc (.error ⟨"Failed to create user"⟩) = .ok →
        (createUserHandler env db body).w.body = [Document.error "Failed to create user"])) ∧
    (ObjectIDFromHex id = some oid →
      FindOneDecode env.dbFault db oid = Except.error DbError.other →
      (getUserHandler env db id).w.status = some 500 ∧
      (env.enc (.error ⟨"Failed to fetch user"⟩) = .ok →
        (getUserHandler env db id).w.body.head? =
          some (Document.error "Failed to fetch user"))) ∧
    (((∃ e, Find env.dbFault db = Except.error e) ∨
      (∃ c e, Find env.dbFault db = Except.ok c ∧
        CursorAll env.cursorFault c Slice.nil = Except.error e)) →
      (getAllUsersHandler env db).w.status = some 500 ∧
      (∀ doc ∈ (getAllUsersHandler env db).w.body, ∃ m, doc = Document.error m) ∧
      ((∀ m, env.enc (.error ⟨m⟩) = .ok) →
        ∃ m, (getAllUsersHandler env db).w.body = [Document.error m])) := by
  refine ⟨?_, ?_, ?_⟩
  · intro hdec ⟨e, he⟩
    have hs := sendError_fresh env [("Content-Type", "application/json")]
      "Failed to create user" 500
    have eq : createUserHandler env db body =
        ⟨sendError env ⟨[("Content-Type", "application/json")], none, []⟩
          "Failed to create user" 500, db,
          [DbOp.insertOne ⟨env.newID, u.Username, u.Password, env.now⟩]⟩ := by
      unfold InsertOne at he
      unfold createUserHandler InsertOne
      by_cases h1 : env.dbFault = true
      · simp [hdec, h1, ResponseWriter.new, ResponseWriter.HeaderSet]
      · by_cases h2 : (List.any db fun d => decide (d._id = env.newID)) = true
        · simp only [hdec, if_neg h1, if_pos h2]
          simp [ResponseWriter.new, ResponseWriter.HeaderSet]
        · rw [if_neg h1, if_neg h2] at he
          simp at he
    rw [eq]
    exact hs
  · intro hid hfind
    unfold getUserHandler
    simp only [hid, hfind]
    unfold sendError Encode
    cases h1 : env.enc (.error ⟨"Failed to fetch user"⟩) <;>
      cases h2 : env.enc (.user User.zero) <;>
      cases h3 : env.enc (.error ⟨"Error encoding JSON"⟩) <;>
      simp [h1, h2, h3, ResponseWriter.new, ResponseWriter.HeaderSet,
        ResponseWriter.WriteHeader, ResponseWriter.Write, Marshal]
  · intro h
    have hs1 := sendError_fresh env [("Content-Type", "application/json")]
      "Failed to fetch Users" 500
    have hs2 := sendError_fresh env [("Content-Type", "application/json")]
      "Failed to decode users" 500
    rcases h with ⟨e, he⟩ | ⟨c, e, hc, he⟩
    · have eq : getAllUsersHandler env db =
          ⟨sendError env ⟨[("Content-Type", "application/json")], none, []⟩
            "Failed to fetch Users" 500, db, [DbOp.find]⟩ := by
        unfold getAllUsersHandler
        simp [he, ResponseWriter.new, ResponseWriter.HeaderSet]
      rw [eq]
      exact ⟨hs1.1, fun doc hd => ⟨_, hs1.2.1 doc hd⟩, fun h => ⟨_, hs1.2.2 (h _)⟩⟩
    · have eq : getAllUsersHandler env db =
          ⟨sendError env ⟨[("Content-Type", "application/json")], none, []⟩
            "Failed to decode users" 500, db, [DbOp.find]⟩ := by
        unfold getAllUsersHandler
        simp [hc, he, ResponseWriter.new, ResponseWriter.HeaderSet]
      rw [eq]
      exact ⟨hs2.1, fun doc hd => ⟨_, hs2.2.1 doc hd⟩, fun h => ⟨_, hs2.2.2 (h _)⟩⟩

/-- Witness of C8: the three handlers on the sample environment with a failing database
call, and the list handler with a failing cursor. -/
theorem database_failure_500_witness :
    (createUserHandler faultEnv [] aliceBody).w.status = some 500 ∧
    (getUserHandler faultEnv [] "000000000000000000000000").w.status = some 500 ∧
    (getAllUsersHandler faultEnv []).w.status = some 500 ∧
    (getAllUsersHandler cursorFaultEnv []).w.status = some 500 :=
  ⟨((database_failure_500 faultEnv [] aliceBody "000000000000000000000000"
      ⟨NilObjectID, "alice", "p1", Time.zero⟩ NilObjectID).1 (by decide)
      ⟨DbError.other, rfl⟩).1,
   ((database_failure_500 faultEnv [] aliceBody "000000000000000000000000"
      ⟨NilObjectID, "alice", "p1", Time.zero⟩ NilObjectID).2.1 (by decide) rfl).1,
   ((database_failure_500 faultEnv [] aliceBody "000000000000000000000000"
      ⟨NilObjectID, "alice", "p1", Time.zero⟩ NilObjectID).2.2
      (Or.inl ⟨DbError.other, rfl⟩)).1,
   ((database_failure_500 cursorFaultEnv [] aliceBody "000000000000000000000000"
      ⟨NilObjectID, "alice", "p1", Time.zero⟩ NilObjectID).2.2
      (Or.inr ⟨[], DbError.other, rfl, rfl⟩)).1⟩

/-- C9 on a connection where writing the record fails: createUserHandler has already sent
status 201 when the encoding fails, so the status stays 201, not 500, and the error object
follows; getUserHandler and getAllUsersHandler, which set no status before encoding,
answer 500 when marshalling fails. -/
theorem createUserHandler_encode_failure :
    (createUserHandler writeFailEnv [] aliceBody).w.status = some 201 ∧
    (createUserHandler writeFailEnv [] aliceBody).w.body =
      [Document.error "Error Encoding JSON"] ∧
    (createUserHandler marshalFailEnv [] aliceBody).w.status = some 201 ∧
    (getUserHandler marshalFailEnv [⟨sampleID, "alice", "p1", 1700000000123⟩]
      "654d1234abcdef0123456789").w.status = some 500 ∧
    (getAllUsersHandler marshalFailEnv
      [⟨sampleID, "alice", "p1", 1700000000123⟩]).w.status = some 500 := by
  decide

/-- C10 on a failing lookup: getUserHandler writes the error object, does not return, and
writes the zero-valued record after it, so the body holds two JSON documents. -/
theorem getUserHandler_two_documents :
    (getUserHandler faultEnv [] "000000000000000000000000").w.status = some 500 ∧
    (getUserHandler faultEnv [] "000000000000000000000000").w.body =
      [Document.error "Failed to fetch user",
       Document.record ⟨"000000000000000000000000", "", "", Time.zero⟩] ∧
    (getUserHandler faultEnv [] "000000000000000000000000").w.body.length = 2 := by
  decide

end UserService
